import Mathlib

/-!
Verification of the CalSync reconciliation engine (backend/app) against its
natural-language specification.  The Python sources are shallowly embedded:
SQLAlchemy rows become Lean structures, the engine functions become pure
state-transformation functions, Python `datetime` values become an explicit
naive/aware sum over an integer UTC timeline, and nullable columns become
`Option`.  External libraries (icalendar) are modelled by a small calendar
AST; payload strings are represented by that AST directly.
-/

namespace CalSync

/-- Python datetime: either naive (wall-clock integer) or timezone-aware
(already positioned on the UTC timeline).  `astimezone(utc)` of an aware
value yields its `utc` field; naive values are interpreted as UTC by
`_normalize_to_utc` (event_processor.py lines 227-232). -/
inductive PyDateTime where
  | naive (wall : Int)
  | aware (utc : Int)
  deriving DecidableEq

/-- The integer instant underlying either flavour of datetime; this is what
both `_normalize_to_utc` (sync_events_to_calendar) and `_normalize_datetime`
(upsert_events) compare after normalisation. -/
def dtToInt : PyDateTime → Int
  | .naive w => w
  | .aware u => u

/-- The function `_normalize_to_utc` of event_processor.py (lines 227-232) on a nullable
datetime, collapsed to the UTC instant. -/
def normalizeToUtc : Option PyDateTime → Option Int
  | none => none
  | some d => some (dtToInt d)

/-- Python truthiness for an optional string: `None` and `""` are falsy. -/
def strTruthy : Option String → Bool
  | none => false
  | some s => s ≠ ""

/-- Python `x or default` for an optional string (models
`db_event.last_modified_source or "local"`). -/
def pyStrOr (o : Option String) (d : String) : String :=
  match o with
  | none => d
  | some s => if s = "" then d else s

/-- EventStatus enum from models.py. -/
inductive EventStatus where
  | new
  | updated
  | cancelled
  | synced
  | failed
  deriving DecidableEq

/-- The `.value` string of an EventStatus member (models.py). -/
def statusValue : EventStatus → String
  | .new => "new"
  | .updated => "updated"
  | .cancelled => "cancelled"
  | .synced => "synced"
  | .failed => "failed"

/-- EventResponseStatus enum from models.py. -/
inductive EventResponseStatus where
  | noneResp
  | accepted
  | tentative
  | declined
  deriving DecidableEq

/-- The `.value` string of an EventResponseStatus member (models.py). -/
def respValue : EventResponseStatus → String
  | .noneResp => "none"
  | .accepted => "accepted"
  | .tentative => "tentative"
  | .declined => "declined"

/-- One history entry `{timestamp, action, description}`; timestamps are
modelled by the integer instant passed to each operation. -/
structure HistoryEntry where
  timestamp : Int
  action : String
  description : String
  deriving DecidableEq

/-- A component of an iCalendar object (icalendar library model): a name
such as "VEVENT" and an ordered property list. -/
structure VComponent where
  name : String
  props : List (String × String)
  deriving DecidableEq

/-- An iCalendar object: calendar-level properties plus components.  Payload
strings of the Python code are represented by this AST; `to_ical`/`from_ical`
round-trips are the identity in the model. -/
structure VCalendar where
  props : List (String × String)
  components : List VComponent
  deriving DecidableEq

/-- Assignment `component[key] = value` of the icalendar mapping interface: replace the
first binding of `key`, or append one. -/
def setProp : List (String × String) → String → String → List (String × String)
  | [], k, v => [(k, v)]
  | (k₀, v₀) :: rest, k, v =>
    if k₀ = k then (k, v) :: rest else (k₀, v₀) :: setProp rest k v

/-- First binding of a property key, if any. -/
def getProp : List (String × String) → String → Option String
  | [], _ => none
  | (k₀, v₀) :: rest, k => if k₀ = k then some v₀ else getProp rest k

/-- TrackedEvent row from models.py, restricted to the columns the engine
reads or writes (updated_at and created_at are not modelled; no claim
mentions them).  `end` is a Lean keyword, hence `end_`. -/
structure TrackedEvent where
  id : Nat
  uid : String
  mailbox_message_id : Option String
  source_account_id : Option Int
  source_folder : Option String
  summary : Option String
  organizer : Option String
  start : Option PyDateTime
  end_ : Option PyDateTime
  status : EventStatus
  response_status : EventResponseStatus
  cancelled_by_organizer : Option Bool
  payload : Option VCalendar
  last_synced : Option PyDateTime
  history : List HistoryEntry
  caldav_etag : Option String
  local_version : Int
  synced_version : Int
  remote_last_modified : Option PyDateTime
  local_last_modified : Option PyDateTime
  last_modified_source : Option String
  sync_conflict : Bool
  sync_conflict_reason : Option String
  sync_conflict_snapshot : Option String
  tracking_disabled : Bool
  deriving DecidableEq

/-- Modelled from the spec: `RemoteEventState{etag, last_modified, payload}`
(spec section 4.3).  The dataclass is imported by event_processor.py from
`caldav_client`, whose copy in src lacks it; only its shape is taken from the
spec, every use below follows event_processor.py. -/
structure RemoteEventState where
  uid : String
  etag : Option String
  last_modified : Option PyDateTime
  payload : Option VCalendar
  deriving DecidableEq

/-- ParsedEvent from utils/ics_parser.py, restricted to the fields
upsert_events and _apply_remote_snapshot consume.  `eventIcal` stands for the
serialisation `parsed.event.to_ical().decode()` of the parsed component. -/
structure ParsedEvent where
  uid : String
  summary : Option String
  organizer : Option String
  start : Option PyDateTime
  end_ : Option PyDateTime
  status : EventStatus
  eventIcal : VCalendar
  method : Option String
  response_status : Option EventResponseStatus
  deriving DecidableEq

/-- Python `str.upper()` on the ASCII property values the engine
uppercases, written over the character list so that it evaluates by
reduction. -/
def pyUpper (s : String) : String :=
  String.mk (s.data.map Char.toUpper)

/-- The test `(parsed.method or "").upper() == "CANCEL"` (event_processor.py line 41
and line 485). -/
def methodIsCancel (method : Option String) : Bool :=
  pyUpper (method.getD "") = "CANCEL"

/-- The etag branch of divergence detection (event_processor.py line 257):
`remote_state.etag and known_etag and remote_state.etag != known_etag`. -/
def etagMismatch (remote : Option RemoteEventState) (knownEtag : Option String) : Bool :=
  match remote with
  | none => false
  | some rs => strTruthy rs.etag && strTruthy knownEtag && decide (rs.etag ≠ knownEtag)

/-- The baseline of the timestamp comparison (event_processor.py line 265):
`known_remote_last_modified or _normalize_to_utc(event.last_synced)` —
Python `or` on a datetime, i.e. the first non-null value, after UTC
normalisation of each side. -/
def exportBaseline (knownRemoteLastModified lastSynced : Option PyDateTime) : Option Int :=
  match normalizeToUtc knownRemoteLastModified with
  | some b => some b
  | none => normalizeToUtc lastSynced

/-- The timestamp branch of divergence detection (event_processor.py
lines 261-275). -/
def timestampLater (remote : Option RemoteEventState)
    (knownRemoteLastModified lastSynced : Option PyDateTime) : Bool :=
  match remote with
  | none => false
  | some rs =>
    match normalizeToUtc rs.last_modified, exportBaseline knownRemoteLastModified lastSynced with
    | some rlm, some b => decide (b < rlm)
    | _, _ => false

/-- The flag `remote_change_detected` of sync_events_to_calendar (event_processor.py
lines 251-279): the etag rule first, otherwise the timestamp rule. -/
def remoteChangeDetected (remote : Option RemoteEventState) (knownEtag : Option String)
    (knownRemoteLastModified lastSynced : Option PyDateTime) : Bool :=
  if etagMismatch remote knownEtag then true
  else timestampLater remote knownRemoteLastModified lastSynced

/-- The divergence rule exactly as the claim words it: the same etag rule,
but with the timestamp baseline `max(known_remote_last_modified, last_synced)`
instead of the first non-null of the two. -/
def claimBaselineMax (knownRemoteLastModified lastSynced : Option PyDateTime) : Option Int :=
  match normalizeToUtc knownRemoteLastModified, normalizeToUtc lastSynced with
  | some a, some b => some (max a b)
  | some a, none => some a
  | none, some b => some b
  | none, none => none

/-- Divergence detection as claimed (max-baseline variant), for comparison
with `remoteChangeDetected`. -/
def claimRemoteChangeDetected (remote : Option RemoteEventState) (knownEtag : Option String)
    (knownRemoteLastModified lastSynced : Option PyDateTime) : Bool :=
  if etagMismatch remote knownEtag then true
  else
    match remote with
    | none => false
    | some rs =>
      match normalizeToUtc rs.last_modified, claimBaselineMax knownRemoteLastModified lastSynced with
      | some rlm, some b => decide (b < rlm)
      | _, _ => false

/-- The calendar rewrite performed by `annotate_response` (event_processor.py
lines 527-537): every VEVENT component receives the uppercased response
value under `X-CALSYNC-RESPONSE`. -/
def annotateCalendar (cal : VCalendar) (resp : EventResponseStatus) : VCalendar :=
  { cal with
    components := cal.components.map (fun c =>
      if c.name = "VEVENT" then
        { c with props := setProp c.props "X-CALSYNC-RESPONSE" (pyUpper (respValue resp)) }
      else c) }

/-- The function `annotate_response(event)` (event_processor.py lines 527-537): parse the
stored payload, stamp each VEVENT, re-serialise.  A missing payload is left
untouched (the Python code is only called with a payload present). -/
def annotateResponse (e : TrackedEvent) : TrackedEvent :=
  match e.payload with
  | none => e
  | some cal => { e with payload := some (annotateCalendar cal e.response_status) }

/-- The source triple passed to `upsert_events`. -/
structure UpsertSource where
  source_message_id : String
  source_account_id : Option Int
  source_folder : Option String
  deriving DecidableEq

/-- One `_update(attr, value)` call of upsert_events (lines 93-111) for a
non-datetime attribute: compare, and set when different.  Returns the new
field value and whether a change was recorded. -/
def updEq {α : Type} [DecidableEq α] (cur new : α) : α × Bool :=
  if cur = new then (cur, false) else (new, true)

/-- One `_update` call for a datetime attribute (lines 97-104): both sides
are normalised before comparison, and a recorded change stores the
normalised (naive) form. -/
def updDT (cur new : Option PyDateTime) : Option PyDateTime × Bool :=
  match cur, new with
  | some c, some n =>
    if dtToInt c = dtToInt n then (some c, false)
    else (some (PyDateTime.naive (dtToInt n)), true)
  | none, some n => (some (PyDateTime.naive (dtToInt n)), true)
  | some _, none => (none, true)
  | none, none => (none, false)

/-- The history entry built at the top of each upsert_events iteration
(lines 46-54). -/
def upsertHistoryEntry (parsed : ParsedEvent) (sourceMessageId : String) (now : Int) :
    HistoryEntry :=
  let desc := "Event processed from message " ++ sourceMessageId
  { timestamp := now
    action := statusValue parsed.status
    description :=
      match parsed.response_status with
      | some r => desc ++ " · Antwort: " ++ respValue r
      | none => desc }

/-- The insert branch of `upsert_events` (event_processor.py lines 55-80):
a fresh TrackedEvent with local_version 1, synced_version 0, one history
entry, and — when the parsed event carries a reply status — an annotated
payload. -/
def upsertNewEvent (parsed : ParsedEvent) (src : UpsertSource) (newId : Nat) (now : Int) :
    TrackedEvent :=
  let e : TrackedEvent :=
    { id := newId
      uid := parsed.uid
      mailbox_message_id := some src.source_message_id
      source_account_id := src.source_account_id
      source_folder := src.source_folder
      summary := parsed.summary
      organizer := parsed.organizer
      start := parsed.start
      end_ := parsed.end_
      status := parsed.status
      response_status := parsed.response_status.getD EventResponseStatus.noneResp
      cancelled_by_organizer :=
        if parsed.status = EventStatus.cancelled then some (methodIsCancel parsed.method)
        else none
      payload := some parsed.eventIcal
      last_synced := none
      history := [upsertHistoryEntry parsed src.source_message_id now]
      caldav_etag := none
      local_version := 1
      synced_version := 0
      remote_last_modified := none
      local_last_modified := some (PyDateTime.naive now)
      last_modified_source := some "local"
      sync_conflict := false
      sync_conflict_reason := none
      sync_conflict_snapshot := none
      tracking_disabled := false }
  if parsed.response_status.isSome then annotateResponse e else e

/-- The update branch of `upsert_events` (event_processor.py lines 81-176):
field-level diff with content/metadata tracking, cancellation attribution,
silent metadata refresh, reply handling with payload re-stamping, status
transition, conditional history append and version bump. -/
def upsertExistingEvent (e : TrackedEvent) (parsed : ParsedEvent) (src : UpsertSource)
    (now : Int) : TrackedEvent :=
  let newPayload := parsed.eventIcal
  let previousStatus := e.status
  let su := updEq e.summary parsed.summary
  let org := updEq e.organizer parsed.organizer
  let st := updDT e.start parsed.start
  let en := updDT e.end_ parsed.end_
  let pl := updEq e.payload (some newPayload)
  let reopened := previousStatus = EventStatus.cancelled ∧ parsed.status ≠ EventStatus.cancelled
  let cboNew : Option Bool :=
    if parsed.status = EventStatus.cancelled then some (methodIsCancel parsed.method) else none
  let cbo := updEq e.cancelled_by_organizer cboNew
  let srcAcc : Option Int :=
    match src.source_account_id with
    | none => e.source_account_id
    | some a => some a
  let srcFolder : Option String :=
    match src.source_folder with
    | none => e.source_folder
    | some f => some f
  let responseChanged : Bool :=
    match parsed.response_status with
    | none => false
    | some r => decide (r ≠ e.response_status)
  let response1 := if responseChanged then parsed.response_status.getD e.response_status
    else e.response_status
  let contentChanged := su.2 || org.2 || st.2 || en.2 || pl.2 || decide reopened || cbo.2
    || responseChanged
  let statusPair : EventStatus × Bool :=
    if parsed.status = EventStatus.cancelled then
      if e.status ≠ EventStatus.cancelled then (EventStatus.cancelled, true) else (e.status, false)
    else if contentChanged && decide (e.status ≠ EventStatus.new) then
      if e.status ≠ EventStatus.updated then (EventStatus.updated, true) else (e.status, false)
    else if decide reopened then
      if e.status ≠ EventStatus.updated then (EventStatus.updated, true) else (e.status, false)
    else (e.status, false)
  let statusChanged := statusPair.2
  let shouldAppendHistory := contentChanged || statusChanged || responseChanged
  let bump := contentChanged || statusChanged || responseChanged
  let payloadAfterResponse :=
    if responseChanged then (annotateResponse { e with payload := pl.1, response_status := response1 }).payload
    else pl.1
  { e with
    summary := su.1
    organizer := org.1
    start := st.1
    end_ := en.1
    payload := payloadAfterResponse
    cancelled_by_organizer := cbo.1
    source_account_id := srcAcc
    source_folder := srcFolder
    mailbox_message_id := some src.source_message_id
    response_status := response1
    status := statusPair.1
    history :=
      if shouldAppendHistory then e.history ++ [upsertHistoryEntry parsed src.source_message_id now]
      else e.history
    local_version := if bump then e.local_version + 1 else e.local_version
    local_last_modified := if bump then some (PyDateTime.naive now) else e.local_last_modified
    last_modified_source := if bump then some "local" else e.last_modified_source
    sync_conflict := if bump then false else e.sync_conflict
    sync_conflict_reason := if bump then none else e.sync_conflict_reason
    sync_conflict_snapshot := if bump then none else e.sync_conflict_snapshot }

/-- The per-event body of `mark_as_synced` (event_processor.py lines 188-215):
status SYNCED, fresh last_synced, synced_version caught up to local_version,
conflict state cleared, optional CalDAV metadata refresh, history append. -/
def markAsSyncedEvent (e : TrackedEvent) (remote : Option RemoteEventState) (now : Int) :
    TrackedEvent :=
  let e1 : TrackedEvent :=
    { e with
      status := EventStatus.synced
      last_synced := some (PyDateTime.naive now)
      synced_version := e.local_version
      sync_conflict := false
      sync_conflict_reason := none
      last_modified_source := some (pyStrOr e.last_modified_source "local")
      local_last_modified := some (e.local_last_modified.getD (PyDateTime.naive now)) }
  let e2 : TrackedEvent :=
    match remote with
    | some rs => { e1 with caldav_etag := rs.etag, remote_last_modified := rs.last_modified }
    | none => e1
  { e2 with
    sync_conflict_snapshot := none
    history := e2.history ++
      [{ timestamp := now, action := "synced", description := "Event exported to CalDAV" }] }

/-- The per-event body of `_record_sync_conflict` (event_processor.py
lines 428-456).  `snapshot` stands for the result of
`extract_event_snapshot(remote_state.payload, uid)` (none when extraction
fails); it is only consulted when the remote payload is truthy. -/
def recordSyncConflict (e : TrackedEvent) (reason : String)
    (remote : Option RemoteEventState) (snapshot : Option String) (now : Int) : TrackedEvent :=
  let e1 : TrackedEvent := { e with sync_conflict := true, sync_conflict_reason := some reason }
  let e2 : TrackedEvent :=
    match remote with
    | some rs =>
      { e1 with
        caldav_etag := if strTruthy rs.etag then rs.etag else e1.caldav_etag
        remote_last_modified := rs.last_modified
        sync_conflict_snapshot := if rs.payload.isSome then snapshot else none }
    | none => { e1 with sync_conflict_snapshot := none }
  { e2 with
    history := e2.history ++ [{ timestamp := now, action := "conflict", description := reason }] }

/-- The component selection of `_apply_remote_snapshot` (line 482):
`next((item for item in parsed_events if item.uid == event.uid),
parsed_events[0])`, `none` when the parse produced no events. -/
def selectRemoteComponent (parsedRemote : List ParsedEvent) (uid : String) :
    Option ParsedEvent :=
  match parsedRemote with
  | [] => none
  | first :: _ => some ((parsedRemote.find? (fun item => item.uid = uid)).getD first)

/-- The body of `_apply_remote_snapshot` (event_processor.py lines 460-517).
`parsedRemote` stands for `parse_ics_payload(remote_state.payload)`; an
absent payload or an empty parse leaves the row untouched. -/
def applyRemoteSnapshot (e : TrackedEvent) (rs : RemoteEventState)
    (parsedRemote : List ParsedEvent) (now : Int) : TrackedEvent :=
  match rs.payload with
  | none => e
  | some _ =>
    match selectRemoteComponent parsedRemote e.uid with
    | none => e
    | some selected =>
      let cbo : Option Bool :=
        if selected.status = EventStatus.cancelled then some (methodIsCancel selected.method)
        else none
      { e with
        summary := selected.summary
        organizer := selected.organizer
        start := selected.start
        end_ := selected.end_
        payload := rs.payload
        status :=
          if selected.status ≠ EventStatus.cancelled then EventStatus.synced
          else EventStatus.cancelled
        cancelled_by_organizer := cbo
        caldav_etag := rs.etag
        remote_last_modified := rs.last_modified
        synced_version := e.local_version
        last_synced := some (PyDateTime.naive now)
        local_last_modified :=
          match rs.last_modified with
          | some d => some d
          | none => e.local_last_modified
        last_modified_source := some "remote"
        sync_conflict := false
        sync_conflict_reason := none
        sync_conflict_snapshot := none
        history := e.history ++
          [{ timestamp := now, action := "remote-update",
             description := "Änderungen aus CalDAV übernommen" }] }

/-- The per-event body of `mark_as_cancelled` (event_processor.py
lines 543-572). -/
def markAsCancelledEvent (e : TrackedEvent) (applied : Bool)
    (remote : Option RemoteEventState) (now : Int) : TrackedEvent :=
  let e1 : TrackedEvent :=
    { e with
      status := EventStatus.cancelled
      last_synced := some (PyDateTime.naive now)
      synced_version := e.local_version
      sync_conflict := false
      sync_conflict_reason := none
      sync_conflict_snapshot := none
      last_modified_source := some "local"
      local_last_modified := some (e.local_last_modified.getD (PyDateTime.naive now)) }
  let e2 : TrackedEvent :=
    match remote with
    | some rs => { e1 with caldav_etag := rs.etag, remote_last_modified := rs.last_modified }
    | none => e1
  { e2 with
    history := e2.history ++
      [{ timestamp := now, action := "cancelled",
         description :=
           if applied then "Kalendereintrag als abgesagt markiert"
           else "Kalendereintrag konnte nicht als abgesagt markiert werden" }] }

/-- The per-event body of `mark_cancellations_ignored` (event_processor.py
lines 582-600): sync metadata marked up-to-date plus the attendee-side
cancellation history entry. -/
def markCancellationIgnoredEvent (e : TrackedEvent) (now : Int) : TrackedEvent :=
  { e with
    last_synced := some (PyDateTime.naive now)
    synced_version := e.local_version
    sync_conflict := false
    sync_conflict_reason := none
    sync_conflict_snapshot := none
    history := e.history ++
      [{ timestamp := now, action := "cancelled",
         description := "Absage ignoriert (nicht vom Ersteller)" }] }

/-- The local mutation of `update_event_response` (main.py lines 1034-1066):
new response status, UPDATED unless cancelled, payload re-stamping,
history entry, version bump, conflict flag cleared. -/
def updateEventResponse (e : TrackedEvent) (resp : EventResponseStatus) (now : Int) :
    TrackedEvent :=
  let e1 : TrackedEvent :=
    { e with
      response_status := resp
      status := if e.status ≠ EventStatus.cancelled then EventStatus.updated else e.status }
  let e2 := annotateResponse e1
  { e2 with
    history := e2.history ++
      [{ timestamp := now, action := "response",
         description :=
           match resp with
           | .accepted => "Teilnahme zugesagt"
           | .tentative => "Teilnahme auf vielleicht gesetzt"
           | .declined => "Teilnahme abgesagt"
           | .noneResp => "Antwort zurückgesetzt" }]
    local_version := e2.local_version + 1
    local_last_modified := some (PyDateTime.naive now)
    last_modified_source := some "local"
    sync_conflict := false
    sync_conflict_reason := none }

/-- The default conflict reason (event_processor.py lines 253-255). -/
def conflictReasonDefault : String :=
  "Kalendereintrag wurde in den Kalenderdaten verändert. Anpassungen aus dem E-Mail-Import wurden nicht überschrieben."

/-- The timestamp-comparison conflict reason (event_processor.py
lines 276-279). -/
def conflictReasonTimestamp : String :=
  "Kalendereintrag wurde im Kalender nach der letzten Synchronisierung verändert (Zeitstempel). Anpassungen aus dem E-Mail-Import wurden nicht überschrieben."

/-- The branch chosen by `sync_events_to_calendar` for one event, named after
the spec's Decision vocabulary. -/
inductive SyncAction where
  | recordConflict (reason : String)
  | fastForward
  | ignoreCancellation
  | skipRemoteCancellation
  | deleteFallback
  | uploadCancellation
  | uploadEvent
  deriving DecidableEq

/-- Does the action touch the remote calendar with an upload or a delete? -/
def touchesCalendar : SyncAction → Bool
  | .deleteFallback => true
  | .uploadCancellation => true
  | .uploadEvent => true
  | _ => false

/-- Is the action one of the two remote-divergence branches (conflict
capture or fast-forward)? -/
def divergenceAction : SyncAction → Bool
  | .recordConflict _ => true
  | .fastForward => true
  | _ => false

/-- The per-event branch structure of `sync_events_to_calendar`
(event_processor.py lines 248-351), as a pure decision over the event and
the probed remote state (`none` covers both an absent remote event and a
probe that raised, which the code catches at lines 243-246). -/
def syncDecision (e : TrackedEvent) (remote : Option RemoteEventState) : SyncAction :=
  let hasLocalChanges := decide (e.synced_version < e.local_version)
  let rcd := remoteChangeDetected remote e.caldav_etag e.remote_last_modified e.last_synced
  if rcd && remote.isSome then
    if hasLocalChanges then
      SyncAction.recordConflict
        (if etagMismatch remote e.caldav_etag then conflictReasonDefault
         else conflictReasonTimestamp)
    else SyncAction.fastForward
  else if e.status = EventStatus.cancelled then
    if e.cancelled_by_organizer = some false then SyncAction.ignoreCancellation
    else if !hasLocalChanges && e.last_modified_source = some "remote" then
      SyncAction.skipRemoteCancellation
    else if e.payload = none then SyncAction.deleteFallback
    else SyncAction.uploadCancellation
  else SyncAction.uploadEvent

/-- Outcome of `get_event_state` for one event: either a value (possibly
`None`) or a raised exception, which sync_events_to_calendar catches and
logs (lines 243-246). -/
def probeResultToOption : Except String (Option RemoteEventState) → Option RemoteEventState
  | .error _ => none
  | .ok r => r

/-- The remote-probe loop of `sync_events_to_calendar` reduced to its branch
decisions: every event of the batch is probed and classified, in order,
regardless of probe failures. -/
def syncBatchDecisions (events : List TrackedEvent)
    (probe : TrackedEvent → Except String (Option RemoteEventState)) :
    List (TrackedEvent × SyncAction) :=
  events.map (fun e => (e, syncDecision e (probeResultToOption (probe e))))

/-- SyncMapping row from models.py, restricted to the columns
perform_sync_all reads. -/
structure SyncMapping where
  id : Nat
  imap_account_id : Int
  imap_folder : String
  caldav_account_id : Int
  calendar_url : String
  deriving DecidableEq

/-- The WHERE clause of the candidate query in `perform_sync_all`
(main.py lines 1176-1194): matching source account and folder, status in
{NEW, UPDATED} or organizer-side/legacy CANCELLED, no conflict, tracking
enabled.  SQL `NULL = x` never matches, hence the `some` comparisons. -/
def syncAllEligible (m : SyncMapping) (e : TrackedEvent) : Bool :=
  decide (e.source_account_id = some m.imap_account_id) &&
  decide (e.source_folder = some m.imap_folder) &&
  ((decide (e.status = EventStatus.new) || decide (e.status = EventStatus.updated)) ||
    (decide (e.status = EventStatus.cancelled) &&
      (decide (e.cancelled_by_organizer = none) ||
       decide (e.cancelled_by_organizer = some true)))) &&
  !e.sync_conflict && !e.tracking_disabled

/-- The sync-all candidate set for one mapping: the stored events that
satisfy the query filter, in store order. -/
def syncAllCandidates (m : SyncMapping) (events : List TrackedEvent) : List TrackedEvent :=
  events.filter (syncAllEligible m)

/-- FolderSelection from imap_client.py (plain strings are normalised to a
selection before expansion). -/
structure FolderSelection where
  name : String
  include_subfolders : Bool
  deriving DecidableEq

/-- One entry of the IMAP LIST response consumed by `_expand_folders`:
flags, delimiter, folder name. -/
structure ImapListEntry where
  flags : List String
  delim : Option String
  name : String
  deriving DecidableEq

/-- Python `delim or "/"` (imap_client.py line 236). -/
def delimOrSlash (delim : Option String) : String :=
  match delim with
  | none => "/"
  | some s => if s = "" then "/" else s

/-- The inner loop of `_expand_folders` (imap_client.py lines 244-256): walk
the available folders, appending every unseen proper subfolder of `base`
under the per-entry delimiter.  Returns the extended (resolved, seen) pair;
`seen` mirrors the Python set as a list with the same membership. -/
def expandSubfolders (base : String) (avail : List (String × String))
    (acc : List String × List String) : List String × List String :=
  match avail with
  | [] => acc
  | (delim, candidate) :: rest =>
    if candidate = base then expandSubfolders base rest acc
    else
      let pref := base ++ delim
      if candidate.startsWith pref ∧ candidate ∉ acc.2 then
        expandSubfolders base rest (acc.1 ++ [candidate], candidate :: acc.2)
      else expandSubfolders base rest acc

/-- The outer loop of `_expand_folders` (imap_client.py lines 239-257). -/
def expandFoldersLoop (selections : List FolderSelection) (avail : List (String × String))
    (acc : List String × List String) : List String × List String :=
  match selections with
  | [] => acc
  | sel :: rest =>
    let acc1 :=
      if sel.name ∉ acc.2 then (acc.1 ++ [sel.name], sel.name :: acc.2) else acc
    let acc2 :=
      if sel.include_subfolders then expandSubfolders sel.name avail acc1 else acc1
    expandFoldersLoop rest avail acc2

/-- The function `_expand_folders` (imap_client.py lines 223-259): resolve folder
selections into a concrete folder list, de-duplicated via the `seen` set.
The warning emitted for unmatched bases does not affect the result. -/
def expandFolders (selections : List FolderSelection) (available : List ImapListEntry) :
    List String :=
  let availNames := available.map (fun entry => (delimOrSlash entry.delim, entry.name))
  (expandFoldersLoop selections availNames ([], [])).1

/-- The auto-sync guard state: the job id held by `_auto_sync_state`
(main.py line 77) plus an instrumentation counter of job bodies that passed
the guard and have not yet reached their `finally` (main.py lines 1277-1369).
The counter is not a program variable; it makes "at most one instance is
running" a statement about the model. -/
structure AutoSyncSys where
  jobId : Option String
  runningCount : Nat
  deriving DecidableEq

/-- Events of the auto-sync system: a scheduler tick entering the job body
(which would create the job `newJobId` if the guard is clear), or a running
instance finishing — `ok = false` for the exception path; both run the
`finally` block that clears the holder (main.py lines 1367-1369). -/
inductive AutoSyncEvent where
  | tick (newJobId : String)
  | finish (ok : Bool)
  deriving DecidableEq

/-- One atomic step of the auto-sync job body, following the lock-guarded
sections of main.py lines 1277-1282 and 1367-1369.  The boolean reports
whether the tick actually started a run (created a job, scanned, synced). -/
def autoSyncStep (s : AutoSyncSys) : AutoSyncEvent → AutoSyncSys × Bool
  | .tick newJobId =>
    match s.jobId with
    | some _ => (s, false)
    | none => ({ jobId := some newJobId, runningCount := s.runningCount + 1 }, true)
  | .finish _ => ({ jobId := none, runningCount := s.runningCount - 1 }, false)

/-- The initial auto-sync state (`{"job_id": None}`, nothing running). -/
def autoSyncInit : AutoSyncSys := { jobId := none, runningCount := 0 }

/-- Run a trace of auto-sync events from a state. -/
def autoSyncRun (s : AutoSyncSys) : List AutoSyncEvent → AutoSyncSys
  | [] => s
  | ev :: rest => autoSyncRun (autoSyncStep s ev).1 rest

/-- The engine operations quantified over by the version-counter claim, each
applied to a single tracked event.  `ingest` is the update branch of
upsert_events; the arguments carry the external inputs of each operation. -/
inductive EngineOp where
  | ingest (parsed : ParsedEvent) (src : UpsertSource) (now : Int)
  | markSynced (remote : Option RemoteEventState) (now : Int)
  | fastForwardRemote (rs : RemoteEventState) (parsedRemote : List ParsedEvent) (now : Int)
  | conflict (reason : String) (remote : Option RemoteEventState) (snapshot : Option String)
      (now : Int)
  | markCancelled (applied : Bool) (remote : Option RemoteEventState) (now : Int)
  | cancellationIgnored (now : Int)
  | responseUpdate (resp : EventResponseStatus) (now : Int)

/-- Apply one engine operation to a tracked event. -/
def applyOp (e : TrackedEvent) : EngineOp → TrackedEvent
  | .ingest parsed src now => upsertExistingEvent e parsed src now
  | .markSynced remote now => markAsSyncedEvent e remote now
  | .fastForwardRemote rs parsedRemote now => applyRemoteSnapshot e rs parsedRemote now
  | .conflict reason remote snapshot now => recordSyncConflict e reason remote snapshot now
  | .markCancelled applied remote now => markAsCancelledEvent e applied remote now
  | .cancellationIgnored now => markCancellationIgnoredEvent e now
  | .responseUpdate resp now => updateEventResponse e resp now

/-- The version-counter invariant of the spec: `0 ≤ synced_version ≤
local_version`. -/
def VersionInv (e : TrackedEvent) : Prop :=
  0 ≤ e.synced_version ∧ e.synced_version ≤ e.local_version

instance (e : TrackedEvent) : Decidable (VersionInv e) := by
  unfold VersionInv; infer_instance

/-- Both counters are non-decreasing across every step of an operation
sequence, checked along the fold. -/
def versionsMonotoneAlong (e : TrackedEvent) : List EngineOp → Bool
  | [] => true
  | op :: rest =>
    let e1 := applyOp e op
    decide (e.synced_version ≤ e1.synced_version) &&
      decide (e.local_version ≤ e1.local_version) && versionsMonotoneAlong e1 rest

theorem etagMismatch_iff (rs : RemoteEventState) (knownEtag : Option String) :
    etagMismatch (some rs) knownEtag = true ↔
      ∃ re ke, rs.etag = some re ∧ re ≠ "" ∧ knownEtag = some ke ∧ ke ≠ "" ∧ re ≠ ke := by
  cases hre : rs.etag with
  | none => simp [etagMismatch, strTruthy, hre]
  | some re =>
    cases hke : knownEtag with
    | none => simp [etagMismatch, strTruthy, hre, hke]
    | some ke =>
      simp only [etagMismatch, strTruthy, hre, hke, Bool.and_eq_true, decide_eq_true_eq,
        ne_eq, Option.some.injEq]
      constructor
      · rintro ⟨⟨hre1, hke1⟩, hne⟩
        exact ⟨re, ke, rfl, hre1, rfl, hke1, fun h => hne (by rw [h])⟩
      · rintro ⟨re1, ke1, h1, h2, h3, h4, h5⟩
        cases h1; cases h3
        exact ⟨⟨h2, h4⟩, fun h => h5 (Option.some.inj (by rw [h]))⟩

/-- C1: the claim states the timestamp baseline is
`max(known_remote_last_modified, last_synced)`; the code
(event_processor.py line 265) uses `known_remote_last_modified or
last_synced`, i.e. the first non-null value.  With cached remote
last-modified 1, last_synced 5 and remote last-modified 3, the code detects
a remote change while the claimed rule does not. -/
theorem remote_divergence_baseline_counterexample :
    remoteChangeDetected
        (some { uid := "u1", etag := none, last_modified := some (PyDateTime.naive 3),
                payload := none })
        none (some (PyDateTime.naive 1)) (some (PyDateTime.naive 5)) = true ∧
      claimRemoteChangeDetected
        (some { uid := "u1", etag := none, last_modified := some (PyDateTime.naive 3),
                payload := none })
        none (some (PyDateTime.naive 1)) (some (PyDateTime.naive 5)) = false := by
  decide

/-- C1 (amended): for every event whose remote probe returns a
RemoteEventState, a remote change is detected iff either the cached and
remote ETags both exist (non-empty) and differ, or — otherwise — the remote
last_modified (UTC-normalised) is strictly later than the baseline, where
the baseline is `known_remote_last_modified` when present and `last_synced`
otherwise (not the max of the two); with no rule firing, no divergence is
detected. -/
theorem remote_divergence_rule (rs : RemoteEventState) (knownEtag : Option String)
    (knownRLM lastSynced : Option PyDateTime) :
    remoteChangeDetected (some rs) knownEtag knownRLM lastSynced = true ↔
      ((∃ re ke, rs.etag = some re ∧ re ≠ "" ∧ knownEtag = some ke ∧ ke ≠ "" ∧ re ≠ ke) ∨
        (¬(∃ re ke, rs.etag = some re ∧ re ≠ "" ∧ knownEtag = some ke ∧ ke ≠ "" ∧ re ≠ ke) ∧
          ∃ rlm b, rs.last_modified = some rlm ∧
            exportBaseline knownRLM lastSynced = some b ∧ b < dtToInt rlm)) := by
  by_cases hm : etagMismatch (some rs) knownEtag = true
  · simp only [remoteChangeDetected, hm, if_true, true_iff]
    exact Or.inl ((etagMismatch_iff rs knownEtag).mp hm)
  · have hnot := fun h => hm ((etagMismatch_iff rs knownEtag).mpr h)
    have hmf : etagMismatch (some rs) knownEtag = false := by
      simpa using hm
    simp only [remoteChangeDetected, hmf, Bool.false_eq_true, if_false]
    cases hlm : rs.last_modified with
    | none =>
      simp only [timestampLater, normalizeToUtc, hlm, Bool.false_eq_true, false_iff]
      rintro (h | ⟨-, rlm1, b1, h1, h2, h3⟩)
      · exact hnot h
      · exact Option.noConfusion h1
    | some rlm =>
      cases hb : exportBaseline knownRLM lastSynced with
      | none =>
        simp only [timestampLater, normalizeToUtc, hlm, hb, Bool.false_eq_true, false_iff]
        rintro (h | ⟨-, rlm1, b1, h1, h2, h3⟩)
        · exact hnot h
        · exact Option.noConfusion h2
      | some b =>
        simp only [timestampLater, normalizeToUtc, hlm, hb, decide_eq_true_eq]
        constructor
        · intro hlt
          exact Or.inr ⟨hnot, rlm, b, rfl, rfl, hlt⟩
        · rintro (h | ⟨-, rlm1, b1, h1, h2, h3⟩)
          · exact absurd h hnot
          · cases h1; cases (Option.some.inj h2); exact h3

/-- C4: the sync-all candidate set for a mapping contains exactly the
stored events of that mapping's source account and folder whose status is
NEW or UPDATED, or CANCELLED with `cancelled_by_organizer` null or true,
with `sync_conflict = false` and `tracking_disabled = false`
(main.py lines 1176-1194); in particular, any event with a conflict or with
tracking disabled is excluded. -/
theorem sync_all_candidate_set (m : SyncMapping) (events : List TrackedEvent)
    (e : TrackedEvent) :
    e ∈ syncAllCandidates m events ↔
      (e ∈ events ∧ e.source_account_id = some m.imap_account_id ∧
        e.source_folder = some m.imap_folder ∧
        ((e.status = EventStatus.new ∨ e.status = EventStatus.updated) ∨
          (e.status = EventStatus.cancelled ∧
            (e.cancelled_by_organizer = none ∨ e.cancelled_by_organizer = some true))) ∧
        e.sync_conflict = false ∧ e.tracking_disabled = false) := by
  simp only [syncAllCandidates, List.mem_filter, syncAllEligible, Bool.and_eq_true,
    Bool.or_eq_true, decide_eq_true_eq, Bool.not_eq_true']
  tauto

/-- C7: if the remote probe for an event raises, sync_events_to_calendar
catches the exception (lines 243-246) and proceeds with `remote_state =
None`: no remote divergence is detected, the chosen branch is one of the
cancellation/upload branches (never conflict capture or fast-forward), and
the batch still classifies every event, so a probe failure never aborts the
export. -/
theorem probe_failure_keeps_syncing (events : List TrackedEvent)
    (probe : TrackedEvent → Except String (Option RemoteEventState))
    (e : TrackedEvent) (msg : String) (h : probe e = Except.error msg) :
    remoteChangeDetected (probeResultToOption (probe e)) e.caldav_etag
        e.remote_last_modified e.last_synced = false ∧
      divergenceAction (syncDecision e (probeResultToOption (probe e))) = false ∧
      (syncBatchDecisions events probe).length = events.length := by
  rw [h]
  have hopt : probeResultToOption (Except.error msg) = none := rfl
  rw [hopt]
  refine ⟨rfl, ?_, by simp [syncBatchDecisions]⟩
  simp only [syncDecision, remoteChangeDetected, etagMismatch, timestampLater,
    Option.isSome_none, Bool.and_false, Bool.false_eq_true, if_false]
  split
  · split
    · rfl
    · split
      · rfl
      · split <;> rfl
  · rfl

/-- A concrete tracked event used to witness the probe-failure claim. -/
def witnessEventC7 : TrackedEvent :=
  { id := 7, uid := "uid-7", mailbox_message_id := some "m7", source_account_id := some 1,
    source_folder := some "INBOX", summary := some "Planning", organizer := some "o@x",
    start := some (PyDateTime.naive 100), end_ := some (PyDateTime.naive 160),
    status := EventStatus.new, response_status := EventResponseStatus.noneResp,
    cancelled_by_organizer := none, payload := some { props := [], components := [] },
    last_synced := none, history := [], caldav_etag := some "e7", local_version := 1,
    synced_version := 0, remote_last_modified := none, local_last_modified := none,
    last_modified_source := some "local", sync_conflict := false,
    sync_conflict_reason := none, sync_conflict_snapshot := none, tracking_disabled := false }

/-- C7 witness: a concrete batch whose probe always raises is still fully
classified, with no divergence branch taken. -/
theorem probe_failure_keeps_syncing_witness :
    remoteChangeDetected
        (probeResultToOption ((fun _ : TrackedEvent => Except.error "boom") witnessEventC7))
        witnessEventC7.caldav_etag witnessEventC7.remote_last_modified
        witnessEventC7.last_synced = false ∧
      divergenceAction (syncDecision witnessEventC7
        (probeResultToOption ((fun _ : TrackedEvent => Except.error "boom") witnessEventC7)))
        = false ∧
      (syncBatchDecisions [witnessEventC7]
        (fun _ => Except.error "boom")).length = [witnessEventC7].length :=
  probe_failure_keeps_syncing [witnessEventC7] (fun _ => Except.error "boom")
    witnessEventC7 "boom" rfl

/-- The guard invariant of the auto-sync holder: the holder records a job id
exactly while one instance is running, and never more than one runs. -/
def AutoInv (s : AutoSyncSys) : Prop :=
  s.runningCount ≤ 1 ∧ (s.jobId.isSome = true ↔ s.runningCount = 1)

theorem autoSyncStep_inv (s : AutoSyncSys) (ev : AutoSyncEvent) (h : AutoInv s) :
    AutoInv (autoSyncStep s ev).1 := by
  obtain ⟨h1, h2⟩ := h
  cases ev with
  | tick newId =>
    cases hj : s.jobId with
    | none =>
      have hc : s.runningCount = 0 := by
        rcases Nat.lt_or_ge s.runningCount 1 with hlt | hge
        · omega
        · exfalso
          have : s.jobId.isSome = true := h2.mpr (by omega)
          rw [hj] at this
          exact Bool.noConfusion this
      simp [autoSyncStep, hj, AutoInv, hc]
    | some j =>
      simp only [autoSyncStep, hj]
      exact ⟨h1, h2⟩
  | finish ok =>
    constructor
    · simp only [autoSyncStep]
      omega
    · simp only [autoSyncStep, Option.isSome_none, Bool.false_eq_true, false_iff]
      omega

theorem autoSyncRun_inv (trace : List AutoSyncEvent) (s : AutoSyncSys) (h : AutoInv s) :
    AutoInv (autoSyncRun s trace) := by
  induction trace generalizing s with
  | nil => simpa [autoSyncRun]
  | cons ev rest ih => exact ih (autoSyncStep s ev).1 (autoSyncStep_inv s ev h)

/-- C8: auto-sync is single-flight.  Starting from the initial holder state,
after any trace of ticks and completions at most one job body is in flight
and the holder records an id exactly while one is; a tick that arrives while
the holder is occupied leaves the state unchanged and starts nothing
(creates no job, scans and syncs nothing); and the finally-block of a
finishing instance clears the holder whether it completed or failed
(main.py lines 1277-1282 and 1367-1369). -/
theorem auto_sync_single_flight (trace : List AutoSyncEvent) (s : AutoSyncSys)
    (newId j : String) (ok : Bool) (h : s.jobId = some j) :
    (autoSyncRun autoSyncInit trace).runningCount ≤ 1 ∧
      ((autoSyncRun autoSyncInit trace).jobId.isSome = true ↔
        (autoSyncRun autoSyncInit trace).runningCount = 1) ∧
      autoSyncStep s (AutoSyncEvent.tick newId) = (s, false) ∧
      (autoSyncStep s (AutoSyncEvent.finish ok)).1.jobId = none := by
  have hinv := autoSyncRun_inv trace autoSyncInit (by constructor <;> simp [autoSyncInit])
  exact ⟨hinv.1, hinv.2, by simp [autoSyncStep, h], rfl⟩

/-- A concrete event trace: a second tick arrives while the first instance
still runs, then the first instance fails. -/
def autoTraceC8 : List AutoSyncEvent :=
  [AutoSyncEvent.tick "a", AutoSyncEvent.tick "b", AutoSyncEvent.finish false]

/-- A concrete occupied holder state. -/
def autoStateC8 : AutoSyncSys := { jobId := some "a", runningCount := 1 }

/-- C8 witness: a concrete occupied holder drops the new tick and is cleared
by the finishing instance. -/
theorem auto_sync_single_flight_witness :
    (autoSyncRun autoSyncInit autoTraceC8).runningCount ≤ 1 ∧
      ((autoSyncRun autoSyncInit autoTraceC8).jobId.isSome = true ↔
        (autoSyncRun autoSyncInit autoTraceC8).runningCount = 1) ∧
      autoSyncStep autoStateC8 (AutoSyncEvent.tick "b") = (autoStateC8, false) ∧
      (autoSyncStep autoStateC8 (AutoSyncEvent.finish false)).1.jobId = none :=
  auto_sync_single_flight autoTraceC8 autoStateC8 "b" "a" false rfl

theorem getProp_setProp (ps : List (String × String)) (k v : String) :
    getProp (setProp ps k v) k = some v := by
  induction ps with
  | nil => simp [setProp, getProp]
  | cons hd tl ih =>
    obtain ⟨k₀, v₀⟩ := hd
    by_cases hk : k₀ = k <;> simp [setProp, getProp, hk, ih]

theorem setProp_idem (ps : List (String × String)) (k v : String) :
    setProp (setProp ps k v) k v = setProp ps k v := by
  induction ps with
  | nil => simp [setProp]
  | cons hd tl ih =>
    obtain ⟨k₀, v₀⟩ := hd
    by_cases hk : k₀ = k <;> simp [setProp, hk, ih]

theorem annotateCalendar_idem (cal : VCalendar) (resp : EventResponseStatus) :
    annotateCalendar (annotateCalendar cal resp) resp = annotateCalendar cal resp := by
  simp only [annotateCalendar, List.map_map, VCalendar.mk.injEq, true_and]
  apply List.map_congr_left
  intro c _
  by_cases hn : c.name = "VEVENT" <;> simp [Function.comp, hn, setProp_idem]

/-- C9: annotate_response stamps the uppercased response value as
`X-CALSYNC-RESPONSE` on every VEVENT component of the payload, and a second
application with an unchanged response status leaves the payload unchanged
(event_processor.py lines 527-537). -/
theorem annotate_response_spec (e : TrackedEvent) (cal : VCalendar)
    (h : e.payload = some cal) :
    (annotateResponse e).payload = some (annotateCalendar cal e.response_status) ∧
      (∀ c ∈ (annotateCalendar cal e.response_status).components, c.name = "VEVENT" →
        getProp c.props "X-CALSYNC-RESPONSE" = some (pyUpper (respValue e.response_status))) ∧
      annotateResponse (annotateResponse e) = annotateResponse e := by
  refine ⟨by simp [annotateResponse, h], ?_, ?_⟩
  · intro c hc hname
    simp only [annotateCalendar, List.mem_map] at hc
    obtain ⟨c₀, -, hmap⟩ := hc
    by_cases hn : c₀.name = "VEVENT"
    · rw [← hmap]
      simp [hn, getProp_setProp]
    · rw [← hmap, if_neg hn] at hname
      exact absurd hname hn
  · simp [annotateResponse, h, annotateCalendar_idem]

/-- A concrete payload with one VEVENT and one foreign component. -/
def witnessCalC9 : VCalendar :=
  { props := [("METHOD", "REPLY")],
    components :=
      [{ name := "VEVENT", props := [("UID", "uid-9"), ("SUMMARY", "Standup")] },
       { name := "VTIMEZONE", props := [("TZID", "Europe/Berlin")] }] }

/-- The tracked event owning that payload. -/
def witnessEventC9 : TrackedEvent :=
  { id := 9, uid := "uid-9", mailbox_message_id := some "m9", source_account_id := some 1,
    source_folder := some "INBOX", summary := some "Standup", organizer := some "o@x",
    start := some (PyDateTime.naive 10), end_ := some (PyDateTime.naive 20),
    status := EventStatus.new, response_status := EventResponseStatus.accepted,
    cancelled_by_organizer := none, payload := some witnessCalC9,
    last_synced := none, history := [], caldav_etag := none, local_version := 1,
    synced_version := 0, remote_last_modified := none, local_last_modified := none,
    last_modified_source := some "local", sync_conflict := false,
    sync_conflict_reason := none, sync_conflict_snapshot := none, tracking_disabled := false }

/-- C9 witness: a concrete payload with one VEVENT and one foreign
component. -/
theorem annotate_response_spec_witness :
    (annotateResponse witnessEventC9).payload =
        some (annotateCalendar witnessCalC9 witnessEventC9.response_status) ∧
      (∀ c ∈ (annotateCalendar witnessCalC9 witnessEventC9.response_status).components,
        c.name = "VEVENT" →
        getProp c.props "X-CALSYNC-RESPONSE" =
          some (pyUpper (respValue witnessEventC9.response_status))) ∧
      annotateResponse (annotateResponse witnessEventC9) = annotateResponse witnessEventC9 :=
  annotate_response_spec witnessEventC9 witnessCalC9 rfl

theorem expandSubfolders_spec (base : String) (avail : List (String × String))
    (acc : List String × List String)
    (hnd : acc.1.Nodup) (hiff : ∀ x, x ∈ acc.1 ↔ x ∈ acc.2) :
    (expandSubfolders base avail acc).1.Nodup ∧
      (∀ x, x ∈ (expandSubfolders base avail acc).1 ↔
        x ∈ (expandSubfolders base avail acc).2) ∧
      ∀ x ∈ acc.1, x ∈ (expandSubfolders base avail acc).1 := by
  induction avail generalizing acc with
  | nil =>
    exact ⟨hnd, hiff, fun x hx => hx⟩
  | cons hd tl ih =>
    obtain ⟨delim, candidate⟩ := hd
    by_cases h1 : candidate = base
    · simpa [expandSubfolders, h1] using ih acc hnd hiff
    · by_cases h2 : candidate.startsWith (base ++ delim) ∧ candidate ∉ acc.2
      · have hc1 : candidate ∉ acc.1 := fun hx => h2.2 ((hiff candidate).mp hx)
        have hnd1 : (acc.1 ++ [candidate]).Nodup := by
          simp [List.nodup_append, hnd, hc1]
        have hiff1 : ∀ x, x ∈ acc.1 ++ [candidate] ↔ x ∈ candidate :: acc.2 := by
          intro x
          simp only [List.mem_append, List.mem_singleton, List.mem_cons, hiff x]
          tauto
        have hrec := ih (acc.1 ++ [candidate], candidate :: acc.2) hnd1 hiff1
        have hstep : expandSubfolders base ((delim, candidate) :: tl) acc =
            expandSubfolders base tl (acc.1 ++ [candidate], candidate :: acc.2) := by
          simp [expandSubfolders, h1, h2]
        rw [hstep]
        refine ⟨hrec.1, hrec.2.1, fun x hx => hrec.2.2 x (by simp [hx])⟩
      · have hstep : expandSubfolders base ((delim, candidate) :: tl) acc =
            expandSubfolders base tl acc := by
          simp [expandSubfolders, h1, h2]
        rw [hstep]
        exact ih acc hnd hiff

theorem expandFoldersLoop_spec (selections : List FolderSelection)
    (avail : List (String × String)) (acc : List String × List String)
    (hnd : acc.1.Nodup) (hiff : ∀ x, x ∈ acc.1 ↔ x ∈ acc.2) :
    (expandFoldersLoop selections avail acc).1.Nodup ∧
      (∀ x ∈ acc.1, x ∈ (expandFoldersLoop selections avail acc).1) ∧
      ∀ sel ∈ selections, sel.name ∈ (expandFoldersLoop selections avail acc).1 := by
  induction selections generalizing acc with
  | nil =>
    exact ⟨hnd, fun x hx => hx, by simp⟩
  | cons sel rest ih =>
    by_cases hseen : sel.name ∈ acc.2
    · have hloop : expandFoldersLoop (sel :: rest) avail acc =
          expandFoldersLoop rest avail
            (if sel.include_subfolders then expandSubfolders sel.name avail acc else acc) := by
        simp [expandFoldersLoop, hseen]
      by_cases hsub : sel.include_subfolders
      · have hs := expandSubfolders_spec sel.name avail acc hnd hiff
        have hrec := ih (expandSubfolders sel.name avail acc) hs.1 hs.2.1
        rw [hloop, if_pos hsub]
        refine ⟨hrec.1, fun x hx => hrec.2.1 x (hs.2.2 x hx), ?_⟩
        intro s hs1
        rcases List.mem_cons.mp hs1 with h | h
        · subst h
          exact hrec.2.1 s.name (hs.2.2 s.name ((hiff s.name).mpr hseen))
        · exact hrec.2.2 s h
      · have hrec := ih acc hnd hiff
        rw [hloop, if_neg hsub]
        refine ⟨hrec.1, hrec.2.1, ?_⟩
        intro s hs1
        rcases List.mem_cons.mp hs1 with h | h
        · subst h
          exact hrec.2.1 s.name ((hiff s.name).mpr hseen)
        · exact hrec.2.2 s h
    · have hnd1 : (acc.1 ++ [sel.name]).Nodup := by
        have : sel.name ∉ acc.1 := fun hx => hseen ((hiff sel.name).mp hx)
        simp [List.nodup_append, hnd, this]
      have hiff1 : ∀ x, x ∈ acc.1 ++ [sel.name] ↔ x ∈ sel.name :: acc.2 := by
        intro x
        simp only [List.mem_append, List.mem_singleton, List.mem_cons, hiff x]
        tauto
      have hloop : expandFoldersLoop (sel :: rest) avail acc =
          expandFoldersLoop rest avail
            (if sel.include_subfolders then
              expandSubfolders sel.name avail (acc.1 ++ [sel.name], sel.name :: acc.2)
            else (acc.1 ++ [sel.name], sel.name :: acc.2)) := by
        simp [expandFoldersLoop, hseen]
      by_cases hsub : sel.include_subfolders
      · have hs := expandSubfolders_spec sel.name avail
          (acc.1 ++ [sel.name], sel.name :: acc.2) hnd1 hiff1
        have hrec := ih _ hs.1 hs.2.1
        rw [hloop, if_pos hsub]
        refine ⟨hrec.1, fun x hx => hrec.2.1 x (hs.2.2 x (by simp [hx])), ?_⟩
        intro s hs1
        rcases List.mem_cons.mp hs1 with h | h
        · subst h
          exact hrec.2.1 s.name (hs.2.2 s.name (by simp))
        · exact hrec.2.2 s h
      · have hrec := ih (acc.1 ++ [sel.name], sel.name :: acc.2) hnd1 hiff1
        rw [hloop, if_neg hsub]
        refine ⟨hrec.1, fun x hx => hrec.2.1 x (by simp [hx]), ?_⟩
        intro s hs1
        rcases List.mem_cons.mp hs1 with h | h
        · subst h
          exact hrec.2.1 s.name (by simp)
        · exact hrec.2.2 s h

/-- C10: folder expansion yields no duplicate folder names — the `seen` set
guards every append — and every selected base folder name itself appears in
the result (imap_client.py lines 223-259), so no mailbox folder is scanned
twice in one pass. -/
theorem expand_folders_nodup_and_complete (selections : List FolderSelection)
    (available : List ImapListEntry) :
    (expandFolders selections available).Nodup ∧
      selections.map FolderSelection.name ⊆ expandFolders selections available := by
  have h := expandFoldersLoop_spec selections
    (available.map (fun entry => (delimOrSlash entry.delim, entry.name))) ([], [])
    (by simp) (by simp)
  refine ⟨h.1, ?_⟩
  intro x hx
  obtain ⟨sel, hsel, rfl⟩ := List.mem_map.mp hx
  exact h.2.2 sel hsel

theorem applyOp_step (e : TrackedEvent) (op : EngineOp) (h : VersionInv e) :
    VersionInv (applyOp e op) ∧ e.synced_version ≤ (applyOp e op).synced_version ∧
      e.local_version ≤ (applyOp e op).local_version := by
  obtain ⟨h0, h1⟩ := h
  cases op with
  | ingest parsed src now =>
    refine ⟨⟨?_, ?_⟩, ?_, ?_⟩ <;>
      simp only [applyOp, upsertExistingEvent] <;> (try split_ifs) <;> omega
  | markSynced remote now =>
    cases remote with
    | none =>
      refine ⟨⟨?_, ?_⟩, ?_, ?_⟩ <;> simp only [applyOp, markAsSyncedEvent] <;> omega
    | some rs =>
      refine ⟨⟨?_, ?_⟩, ?_, ?_⟩ <;> simp only [applyOp, markAsSyncedEvent] <;> omega
  | fastForwardRemote rs parsedRemote now =>
    cases hp : rs.payload with
    | none =>
      refine ⟨⟨?_, ?_⟩, ?_, ?_⟩ <;> simp only [applyOp, applyRemoteSnapshot, hp] <;> omega
    | some p =>
      cases parsedRemote with
      | nil =>
        refine ⟨⟨?_, ?_⟩, ?_, ?_⟩ <;>
          simp only [applyOp, applyRemoteSnapshot, selectRemoteComponent, hp] <;> omega
      | cons first restL =>
        refine ⟨⟨?_, ?_⟩, ?_, ?_⟩ <;>
          simp only [applyOp, applyRemoteSnapshot, selectRemoteComponent, hp] <;> omega
  | conflict reason remote snapshot now =>
    cases remote with
    | none =>
      refine ⟨⟨?_, ?_⟩, ?_, ?_⟩ <;> simp only [applyOp, recordSyncConflict] <;> omega
    | some rs =>
      refine ⟨⟨?_, ?_⟩, ?_, ?_⟩ <;> simp only [applyOp, recordSyncConflict] <;> omega
  | markCancelled applied remote now =>
    cases remote with
    | none =>
      refine ⟨⟨?_, ?_⟩, ?_, ?_⟩ <;> simp only [applyOp, markAsCancelledEvent] <;> omega
    | some rs =>
      refine ⟨⟨?_, ?_⟩, ?_, ?_⟩ <;> simp only [applyOp, markAsCancelledEvent] <;> omega
  | cancellationIgnored now =>
    refine ⟨⟨?_, ?_⟩, ?_, ?_⟩ <;> simp only [applyOp, markCancellationIgnoredEvent] <;> omega
  | responseUpdate resp now =>
    cases hp : e.payload with
    | none =>
      refine ⟨⟨?_, ?_⟩, ?_, ?_⟩ <;>
        simp only [applyOp, updateEventResponse, annotateResponse, hp] <;> omega
    | some cal =>
      refine ⟨⟨?_, ?_⟩, ?_, ?_⟩ <;>
        simp only [applyOp, updateEventResponse, annotateResponse, hp] <;> omega

/-- C3: starting from any event satisfying `0 ≤ synced_version ≤
local_version` (as every engine-created event does), any sequence of engine
operations preserves the invariant, and both counters are non-decreasing at
every step of the sequence. -/
theorem version_counters_invariant (e : TrackedEvent) (ops : List EngineOp)
    (h : VersionInv e) :
    VersionInv (ops.foldl applyOp e) ∧ versionsMonotoneAlong e ops = true := by
  induction ops generalizing e with
  | nil => exact ⟨h, rfl⟩
  | cons op rest ih =>
    have step := applyOp_step e op h
    have hrest := ih (applyOp e op) step.1
    refine ⟨hrest.1, ?_⟩
    simp only [versionsMonotoneAlong, Bool.and_eq_true, decide_eq_true_eq]
    exact ⟨⟨step.2.1, step.2.2⟩, hrest.2⟩

/-- A freshly ingested event for the C3 witness: local_version 1,
synced_version 0. -/
def witnessEventC3 : TrackedEvent :=
  upsertNewEvent
    { uid := "uid-3", summary := some "Kickoff", organizer := some "o@x",
      start := some (PyDateTime.aware 540), end_ := some (PyDateTime.aware 600),
      status := EventStatus.new,
      eventIcal := { props := [], components := [{ name := "VEVENT", props := [("UID", "uid-3")] }] },
      method := some "REQUEST", response_status := none }
    { source_message_id := "m3", source_account_id := some 1, source_folder := some "INBOX" }
    3 50

/-- A concrete operation sequence for the C3 witness: export, remote
conflict capture, response update, cancellation bookkeeping. -/
def witnessOpsC3 : List EngineOp :=
  [EngineOp.markSynced
      (some { uid := "uid-3", etag := some "e1", last_modified := some (PyDateTime.aware 55),
              payload := none }) 60,
   EngineOp.conflict "Konflikt"
      (some { uid := "uid-3", etag := some "e2", last_modified := some (PyDateTime.aware 70),
              payload := none }) none 71,
   EngineOp.responseUpdate EventResponseStatus.accepted 80,
   EngineOp.markCancelled true none 90,
   EngineOp.cancellationIgnored 95]

/-- C3 witness: the invariant and stepwise monotonicity hold along a
concrete five-operation run from a freshly ingested event. -/
theorem version_counters_invariant_witness :
    VersionInv (witnessOpsC3.foldl applyOp witnessEventC3) ∧
      versionsMonotoneAlong witnessEventC3 witnessOpsC3 = true :=
  version_counters_invariant witnessEventC3 witnessOpsC3 (by constructor <;> decide)

/-- Agreement of a stored datetime with a parsed one modulo the
timezone-to-UTC normalisation applied by `_update`. -/
def dtAgrees (cur new : Option PyDateTime) : Bool :=
  match cur, new with
  | some c, some n => dtToInt c = dtToInt n
  | none, none => true
  | _, _ => false

/-- C2: re-ingesting a payload identical to the one already stored — the
hypotheses express that the parsed event is the parse of the stored payload:
matching snapshot fields (datetimes modulo UTC normalisation), matching
serialisation, consistent cancellation attribution, consistent status and a
reply status that is absent or unchanged — leaves everything unchanged
except the silent metadata fields (source account, folder,
mailbox_message_id): no version bump, no history entry, no status change
(event_processor.py lines 81-176). -/
theorem ingest_idempotent (e : TrackedEvent) (parsed : ParsedEvent) (src : UpsertSource)
    (now : Int)
    (hsum : parsed.summary = e.summary)
    (horg : parsed.organizer = e.organizer)
    (hstart : dtAgrees e.start parsed.start = true)
    (hend : dtAgrees e.end_ parsed.end_ = true)
    (hpay : e.payload = some parsed.eventIcal)
    (hcbo : e.cancelled_by_organizer =
      (if parsed.status = EventStatus.cancelled then some (methodIsCancel parsed.method)
       else none))
    (hstat : parsed.status = EventStatus.cancelled ↔ e.status = EventStatus.cancelled)
    (hresp : parsed.response_status = none ∨ parsed.response_status = some e.response_status) :
    upsertExistingEvent e parsed src now =
      { e with
        mailbox_message_id := some src.source_message_id,
        source_account_id :=
          match src.source_account_id with
          | none => e.source_account_id
          | some a => some a,
        source_folder :=
          match src.source_folder with
          | none => e.source_folder
          | some f => some f } := by
  have hsu : updEq e.summary parsed.summary = (e.summary, false) := by
    simp [updEq, hsum]
  have horg1 : updEq e.organizer parsed.organizer = (e.organizer, false) := by
    simp [updEq, horg]
  have hst : updDT e.start parsed.start = (e.start, false) := by
    cases hc : e.start <;> cases hn : parsed.start <;> simp_all [updDT, dtAgrees]
  have hen : updDT e.end_ parsed.end_ = (e.end_, false) := by
    cases hc : e.end_ <;> cases hn : parsed.end_ <;> simp_all [updDT, dtAgrees]
  have hpl : updEq e.payload (some parsed.eventIcal) = (e.payload, false) := by
    simp [updEq, hpay]
  have hcb : updEq e.cancelled_by_organizer
      (if parsed.status = EventStatus.cancelled then some (methodIsCancel parsed.method)
       else none) = (e.cancelled_by_organizer, false) := by
    rw [← hcbo]
    simp [updEq]
  have hrc : (match parsed.response_status with
      | none => false
      | some r => decide (r ≠ e.response_status)) = false := by
    rcases hresp with h | h <;> simp [h]
  have hreo : decide (e.status = EventStatus.cancelled ∧
      parsed.status ≠ EventStatus.cancelled) = false := by
    by_cases hh : parsed.status = EventStatus.cancelled
    · simp [hh]
    · have hne : e.status ≠ EventStatus.cancelled := fun hc => hh (hstat.mpr hc)
      simp [hne]
  by_cases hpc : parsed.status = EventStatus.cancelled
  · have hec := hstat.mp hpc
    simp only [upsertExistingEvent, hsu, horg1, hst, hen, hpl, hcb, hrc, hreo]
    simp [hpc, hec]
  · simp only [upsertExistingEvent, hsu, horg1, hst, hen, hpl, hcb, hrc, hreo]
    simp [hpc]

/-- The stored (annotated) REPLY payload of the C2 witness event. -/
def witnessCalC2 : VCalendar :=
  { props := [("METHOD", "REPLY")],
    components :=
      [{ name := "VEVENT",
         props := [("UID", "uid-2"), ("X-CALSYNC-RESPONSE", "ACCEPTED")] }] }

/-- A previously synced tracked event for the C2 witness; its stored payload
carries the annotated REPLY component. -/
def witnessEventC2 : TrackedEvent :=
  { id := 2, uid := "uid-2", mailbox_message_id := some "m2a", source_account_id := some 1,
    source_folder := some "INBOX", summary := some "Review", organizer := some "o@x",
    start := some (PyDateTime.naive 100), end_ := some (PyDateTime.naive 160),
    status := EventStatus.synced, response_status := EventResponseStatus.accepted,
    cancelled_by_organizer := none,
    payload := some witnessCalC2,
    last_synced := some (PyDateTime.naive 140),
    history := [⟨90, "new", "Event processed from message m2a · Antwort: accepted"⟩],
    caldav_etag := some "etag-2", local_version := 1, synced_version := 1,
    remote_last_modified := some (PyDateTime.aware 150),
    local_last_modified := some (PyDateTime.naive 90), last_modified_source := some "local",
    sync_conflict := false, sync_conflict_reason := none, sync_conflict_snapshot := none,
    tracking_disabled := false }

/-- The parse of that stored payload: same snapshot fields (start and end
timezone-aware at the same instants), same serialisation, same reply. -/
def witnessParsedC2 : ParsedEvent :=
  { uid := "uid-2", summary := some "Review", organizer := some "o@x",
    start := some (PyDateTime.aware 100), end_ := some (PyDateTime.aware 160),
    status := EventStatus.new,
    eventIcal := witnessCalC2,
    method := some "REPLY", response_status := some EventResponseStatus.accepted }

/-- C2 witness: the re-scan of identical mail from a different message id
updates only the silent metadata fields of the concrete synced event. -/
theorem ingest_idempotent_witness :
    upsertExistingEvent witnessEventC2 witnessParsedC2
        { source_message_id := "m2b", source_account_id := some 2,
          source_folder := some "Sub" } 200 =
      { witnessEventC2 with
        mailbox_message_id := some "m2b",
        source_account_id := some 2,
        source_folder := some "Sub" } :=
  ingest_idempotent witnessEventC2 witnessParsedC2
    { source_message_id := "m2b", source_account_id := some 2, source_folder := some "Sub" }
    200 rfl rfl (by decide) (by decide) rfl (by decide) (by decide) (Or.inr rfl)

/-- The remote calendar payload of the C5 counterexample: a cancelled VEVENT
in a calendar without a METHOD property, as CalDAV servers store it. -/
def witnessCalC5 : VCalendar :=
  { props := [],
    components :=
      [{ name := "VEVENT", props := [("UID", "uid-5"), ("STATUS", "CANCELLED")] }] }

/-- The parse of that payload: cancelled component, no METHOD. -/
def witnessParsedC5 : ParsedEvent :=
  { uid := "uid-5", summary := some "Offsite", organizer := some "o@x",
    start := some (PyDateTime.aware 700), end_ := some (PyDateTime.aware 760),
    status := EventStatus.cancelled,
    eventIcal := witnessCalC5,
    method := none, response_status := none }

/-- The remote state delivering that payload. -/
def witnessRemoteC5 : RemoteEventState :=
  { uid := "uid-5", etag := some "etag-5b", last_modified := some (PyDateTime.aware 710),
    payload := some witnessCalC5 }

/-- The local event being fast-forwarded in the C5 counterexample. -/
def witnessEventC5 : TrackedEvent :=
  { id := 5, uid := "uid-5", mailbox_message_id := some "m5", source_account_id := some 1,
    source_folder := some "INBOX", summary := some "Offsite", organizer := some "o@x",
    start := some (PyDateTime.naive 700), end_ := some (PyDateTime.naive 760),
    status := EventStatus.synced, response_status := EventResponseStatus.noneResp,
    cancelled_by_organizer := none, payload := some witnessCalC5,
    last_synced := some (PyDateTime.naive 650), history := [],
    caldav_etag := some "etag-5a", local_version := 1, synced_version := 1,
    remote_last_modified := some (PyDateTime.aware 640),
    local_last_modified := some (PyDateTime.naive 600), last_modified_source := some "local",
    sync_conflict := false, sync_conflict_reason := none, sync_conflict_snapshot := none,
    tracking_disabled := false }

/-- C5: the claim says a cancelled remote component yields status CANCELLED
with `cancelled_by_organizer = true`; the code (event_processor.py
lines 483-485, 497) sets `cancelled_by_organizer = (METHOD == "CANCEL")`,
which is `false` for this remote payload without a METHOD, so the claim
fails on it. -/
theorem remote_fast_forward_cbo_counterexample :
    (applyRemoteSnapshot witnessEventC5 witnessRemoteC5 [witnessParsedC5] 720).status =
        EventStatus.cancelled ∧
      (applyRemoteSnapshot witnessEventC5 witnessRemoteC5
        [witnessParsedC5] 720).cancelled_by_organizer = some false ∧
      ¬(applyRemoteSnapshot witnessEventC5 witnessRemoteC5
        [witnessParsedC5] 720).cancelled_by_organizer = some true := by
  decide

/-- C5 (amended): for a parseable non-empty remote payload, the fast-forward
selects the component matching the event's UID (or the first), overwrites
the snapshot fields, payload, ETag and remote_last_modified, sets
synced_version = local_version, last_modified_source = "remote", status
SYNCED — or CANCELLED with `cancelled_by_organizer = (remote METHOD ==
CANCEL)` when the remote component is cancelled — appends the history entry
"Änderungen aus CalDAV übernommen", clears the conflict state, and keeps the
same row: id and uid are unchanged. -/
theorem remote_fast_forward_postconditions (e : TrackedEvent) (rs : RemoteEventState)
    (parsedRemote : List ParsedEvent) (now : Int) (p : VCalendar) (sel : ParsedEvent)
    (hp : rs.payload = some p)
    (hsel : selectRemoteComponent parsedRemote e.uid = some sel) :
    applyRemoteSnapshot e rs parsedRemote now =
      { e with
        summary := sel.summary
        organizer := sel.organizer
        start := sel.start
        end_ := sel.end_
        payload := rs.payload
        status :=
          if sel.status ≠ EventStatus.cancelled then EventStatus.synced
          else EventStatus.cancelled
        cancelled_by_organizer :=
          if sel.status = EventStatus.cancelled then some (methodIsCancel sel.method)
          else none
        caldav_etag := rs.etag
        remote_last_modified := rs.last_modified
        synced_version := e.local_version
        last_synced := some (PyDateTime.naive now)
        local_last_modified :=
          match rs.last_modified with
          | some d => some d
          | none => e.local_last_modified
        last_modified_source := some "remote"
        sync_conflict := false
        sync_conflict_reason := none
        sync_conflict_snapshot := none
        history := e.history ++
          [{ timestamp := now, action := "remote-update",
             description := "Änderungen aus CalDAV übernommen" }] } ∧
      (applyRemoteSnapshot e rs parsedRemote now).id = e.id ∧
      (applyRemoteSnapshot e rs parsedRemote now).uid = e.uid := by
  cases parsedRemote with
  | nil => exact absurd hsel (by simp [selectRemoteComponent])
  | cons first rest =>
    obtain ⟨ruid, retag, rlm, rpay⟩ := rs
    cases rpay with
    | none => exact Option.noConfusion hp
    | some p0 =>
      have hsel1 : ((first :: rest).find? (fun item => item.uid = e.uid)).getD first = sel := by
        simpa [selectRemoteComponent] using hsel
      refine ⟨?_, ?_, ?_⟩ <;>
        simp [applyRemoteSnapshot, selectRemoteComponent, hsel1]

/-- C5 witness: the amended postconditions evaluated on the concrete
cancelled remote payload. -/
theorem remote_fast_forward_postconditions_witness :
    applyRemoteSnapshot witnessEventC5 witnessRemoteC5 [witnessParsedC5] 720 =
      { witnessEventC5 with
        summary := witnessParsedC5.summary
        organizer := witnessParsedC5.organizer
        start := witnessParsedC5.start
        end_ := witnessParsedC5.end_
        payload := witnessRemoteC5.payload
        status :=
          if witnessParsedC5.status ≠ EventStatus.cancelled then EventStatus.synced
          else EventStatus.cancelled
        cancelled_by_organizer :=
          if witnessParsedC5.status = EventStatus.cancelled then
            some (methodIsCancel witnessParsedC5.method)
          else none
        caldav_etag := witnessRemoteC5.etag
        remote_last_modified := witnessRemoteC5.last_modified
        synced_version := witnessEventC5.local_version
        last_synced := some (PyDateTime.naive 720)
        local_last_modified :=
          match witnessRemoteC5.last_modified with
          | some d => some d
          | none => witnessEventC5.local_last_modified
        last_modified_source := some "remote"
        sync_conflict := false
        sync_conflict_reason := none
        sync_conflict_snapshot := none
        history := witnessEventC5.history ++
          [{ timestamp := 720, action := "remote-update",
             description := "Änderungen aus CalDAV übernommen" }] } ∧
      (applyRemoteSnapshot witnessEventC5 witnessRemoteC5 [witnessParsedC5] 720).id =
        witnessEventC5.id ∧
      (applyRemoteSnapshot witnessEventC5 witnessRemoteC5 [witnessParsedC5] 720).uid =
        witnessEventC5.uid :=
  remote_fast_forward_postconditions witnessEventC5 witnessRemoteC5 [witnessParsedC5] 720
    witnessCalC5 witnessParsedC5 rfl rfl

/-- The attendee-side cancellation mail of the C6 scenarios: STATUS
CANCELLED with METHOD REQUEST (anything other than CANCEL). -/
def witnessParsedC6 : ParsedEvent :=
  { uid := "uid-6", summary := some "Townhall", organizer := some "o@x",
    start := some (PyDateTime.aware 800), end_ := some (PyDateTime.aware 860),
    status := EventStatus.cancelled,
    eventIcal :=
      { props := [("METHOD", "REQUEST")],
        components :=
          [{ name := "VEVENT", props := [("UID", "uid-6"), ("STATUS", "CANCELLED")] }] },
    method := some "REQUEST", response_status := none }

/-- The tracked event before the attendee cancellation arrives, already
exported once. -/
def witnessBaseC6 : TrackedEvent :=
  { id := 6, uid := "uid-6", mailbox_message_id := some "m6a", source_account_id := some 1,
    source_folder := some "INBOX", summary := some "Townhall", organizer := some "o@x",
    start := some (PyDateTime.naive 800), end_ := some (PyDateTime.naive 860),
    status := EventStatus.synced, response_status := EventResponseStatus.noneResp,
    cancelled_by_organizer := none,
    payload := some witnessParsedC6.eventIcal,
    last_synced := some (PyDateTime.naive 700), history := [],
    caldav_etag := some "etag-6a", local_version := 1, synced_version := 1,
    remote_last_modified := some (PyDateTime.aware 690),
    local_last_modified := some (PyDateTime.naive 650), last_modified_source := some "local",
    sync_conflict := false, sync_conflict_reason := none, sync_conflict_snapshot := none,
    tracking_disabled := false }

/-- The ingest source of the cancellation mail. -/
def witnessSrcC6 : UpsertSource :=
  { source_message_id := "m6b", source_account_id := some 1, source_folder := some "INBOX" }

/-- A mapping whose source account and folder match the C6 event, so that
its exclusion from the candidate set is due to the cancellation filter
alone. -/
def witnessMappingC6 : SyncMapping :=
  { id := 1, imap_account_id := 1, imap_folder := "INBOX", caldav_account_id := 2,
    calendar_url := "https://cal.example/personal" }

/-- C6: the claim asserts that a subsequent sync-all appends the history
entry "Absage ignoriert (nicht vom Ersteller)" and updates last_synced for
an event ingested with STATUS:CANCELLED and a METHOD other than CANCEL; but
the candidate query of perform_sync_all (main.py lines 1180-1193) admits
CANCELLED events only with `cancelled_by_organizer` null or true, so the
ingested event — although it matches the mapping's account and folder and
is neither conflicted nor tracking-disabled — is excluded, and sync-all
never processes it: no history entry is appended and last_synced is never
updated by sync-all. -/
theorem attendee_cancellation_sync_all_counterexample :
    (upsertExistingEvent witnessBaseC6 witnessParsedC6 witnessSrcC6 750).status =
        EventStatus.cancelled ∧
      (upsertExistingEvent witnessBaseC6 witnessParsedC6
        witnessSrcC6 750).cancelled_by_organizer = some false ∧
      (upsertExistingEvent witnessBaseC6 witnessParsedC6
        witnessSrcC6 750).source_account_id = some witnessMappingC6.imap_account_id ∧
      (upsertExistingEvent witnessBaseC6 witnessParsedC6
        witnessSrcC6 750).source_folder = some witnessMappingC6.imap_folder ∧
      (upsertExistingEvent witnessBaseC6 witnessParsedC6
        witnessSrcC6 750).sync_conflict = false ∧
      (upsertExistingEvent witnessBaseC6 witnessParsedC6
        witnessSrcC6 750).tracking_disabled = false ∧
      syncAllEligible witnessMappingC6
        (upsertExistingEvent witnessBaseC6 witnessParsedC6 witnessSrcC6 750) = false ∧
      syncAllCandidates witnessMappingC6
        [upsertExistingEvent witnessBaseC6 witnessParsedC6 witnessSrcC6 750] = [] := by
  decide

/-- C6 (amended): an event ingested with STATUS:CANCELLED and a METHOD
other than CANCEL (hence `cancelled_by_organizer = false`) is excluded from
every mapping's sync-all candidate set, so sync-all invokes neither upload
nor delete_by_uid for it and leaves its history and last_synced untouched;
when such an event is nevertheless fed to the export path (as manual sync
or the response-update sync do) and no remote divergence is detected, the
engine takes the ignore branch — touching no calendar — and the bulk write
appends "Absage ignoriert (nicht vom Ersteller)" and updates last_synced
with synced_version = local_version (main.py lines 1180-1193;
event_processor.py lines 297-306 and 576-601). -/
theorem attendee_cancellation_handling (e0 : TrackedEvent) (parsed : ParsedEvent)
    (src : UpsertSource) (now now2 : Int) (probe : Option RemoteEventState)
    (m : SyncMapping) (events : List TrackedEvent)
    (hpc : parsed.status = EventStatus.cancelled)
    (hmc : methodIsCancel parsed.method = false)
    (hnd : remoteChangeDetected probe (upsertExistingEvent e0 parsed src now).caldav_etag
      (upsertExistingEvent e0 parsed src now).remote_last_modified
      (upsertExistingEvent e0 parsed src now).last_synced = false) :
    syncAllEligible m (upsertExistingEvent e0 parsed src now) = false ∧
      upsertExistingEvent e0 parsed src now ∉ syncAllCandidates m events ∧
      syncDecision (upsertExistingEvent e0 parsed src now) probe =
        SyncAction.ignoreCancellation ∧
      touchesCalendar (syncDecision (upsertExistingEvent e0 parsed src now) probe) = false ∧
      (markCancellationIgnoredEvent (upsertExistingEvent e0 parsed src now) now2).history =
        (upsertExistingEvent e0 parsed src now).history ++
          [{ timestamp := now2, action := "cancelled",
             description := "Absage ignoriert (nicht vom Ersteller)" }] ∧
      (markCancellationIgnoredEvent (upsertExistingEvent e0 parsed src now)
        now2).last_synced = some (PyDateTime.naive now2) ∧
      (markCancellationIgnoredEvent (upsertExistingEvent e0 parsed src now)
        now2).synced_version = (upsertExistingEvent e0 parsed src now).local_version := by
  have hstat : (upsertExistingEvent e0 parsed src now).status = EventStatus.cancelled := by
    simp only [upsertExistingEvent, hpc]
    by_cases h : e0.status = EventStatus.cancelled <;> simp [h]
  have hcbo : (upsertExistingEvent e0 parsed src now).cancelled_by_organizer = some false := by
    by_cases h : e0.cancelled_by_organizer = some false <;>
      simp [upsertExistingEvent, updEq, hpc, hmc, h]
  have helig : syncAllEligible m (upsertExistingEvent e0 parsed src now) = false := by
    simp [syncAllEligible, hstat, hcbo]
  have hmem : upsertExistingEvent e0 parsed src now ∉ syncAllCandidates m events := by
    intro hm
    have := (List.mem_filter.mp hm).2
    rw [helig] at this
    exact Bool.noConfusion this
  have hdec : syncDecision (upsertExistingEvent e0 parsed src now) probe =
      SyncAction.ignoreCancellation := by
    simp [syncDecision, hnd, hstat, hcbo]
  exact ⟨helig, hmem, hdec, by rw [hdec]; rfl, rfl, rfl, rfl⟩

/-- C6 witness: the amended statement evaluated on the concrete attendee
cancellation, its matching mapping and a clean remote probe. -/
theorem attendee_cancellation_handling_witness :
    syncAllEligible witnessMappingC6
        (upsertExistingEvent witnessBaseC6 witnessParsedC6 witnessSrcC6 750) = false ∧
      upsertExistingEvent witnessBaseC6 witnessParsedC6 witnessSrcC6 750 ∉
        syncAllCandidates witnessMappingC6
          [upsertExistingEvent witnessBaseC6 witnessParsedC6 witnessSrcC6 750] ∧
      syncDecision (upsertExistingEvent witnessBaseC6 witnessParsedC6 witnessSrcC6 750) none =
        SyncAction.ignoreCancellation ∧
      touchesCalendar (syncDecision (upsertExistingEvent witnessBaseC6 witnessParsedC6
        witnessSrcC6 750) none) = false ∧
      (markCancellationIgnoredEvent (upsertExistingEvent witnessBaseC6 witnessParsedC6
        witnessSrcC6 750) 760).history =
        (upsertExistingEvent witnessBaseC6 witnessParsedC6 witnessSrcC6 750).history ++
          [{ timestamp := 760, action := "cancelled",
             description := "Absage ignoriert (nicht vom Ersteller)" }] ∧
      (markCancellationIgnoredEvent (upsertExistingEvent witnessBaseC6 witnessParsedC6
        witnessSrcC6 750) 760).last_synced = some (PyDateTime.naive 760) ∧
      (markCancellationIgnoredEvent (upsertExistingEvent witnessBaseC6 witnessParsedC6
        witnessSrcC6 750) 760).synced_version =
        (upsertExistingEvent witnessBaseC6 witnessParsedC6 witnessSrcC6 750).local_version :=
  attendee_cancellation_handling witnessBaseC6 witnessParsedC6 witnessSrcC6 750 760 none
    witnessMappingC6
    [upsertExistingEvent witnessBaseC6 witnessParsedC6 witnessSrcC6 750]
    rfl (by decide) rfl

end CalSync
